import Mathlib

/-!
Verification of the nonfungible-adapter tutorial: a shallow embedding of the
XCM asset model, the NftsMatcher and NftsFromSiblings filters from the
runtime configuration excerpted in README.md, and the builder/query helpers
from scripts/transfer-nft.js and scripts/setup-collections.js.

Machine integers are modelled as Nat; the Rust cast from u128 down to u32
(the expression written as a cast to u32 in the README matcher) is modelled
as reduction modulo 2 ^ 32.
-/

/-- A junction of an XCM location interior.  The closed variant set used by
this tutorial: Parachain, PalletInstance, GeneralIndex (u128) and
AccountId32 (optional network tag, 32-byte id modelled as a byte list). -/
inductive Junction where
  | Parachain (id : Nat)
  | PalletInstance (index : Nat)
  | GeneralIndex (value : Nat)
  | AccountId32 (network : Option Nat) (id : List Nat)
  deriving DecidableEq, Repr

/-- An XCM location: parent hop count plus an ordered interior path.
Equality is structural and order-sensitive. -/
structure AssetLocation where
  parents : Nat
  interior : List Junction
  deriving DecidableEq, Repr

/-- An asset instance tag.  Only Index is used by the tutorial; Undefined and
the byte-array forms (collapsed into Blob here) exist so that the matcher is
an exhaustive function over the full variant space. -/
inductive AssetInstance where
  | Undefined
  | Index (value : Nat)
  | Blob (bytes : List Nat)
  deriving DecidableEq, Repr

/-- Fungibility of an asset: a divisible amount or a discrete instance. -/
inductive Fungibility where
  | Fungible (amount : Nat)
  | NonFungible (inst : AssetInstance)
  deriving DecidableEq, Repr

/-- An XCM asset descriptor: a location identifying the asset class plus its
fungibility.  The source calls the second field `fun`, a reserved word here. -/
structure Asset where
  id : AssetLocation
  fungibility : Fungibility
  deriving DecidableEq, Repr

/-- Error type of the matcher.  The README matcher only ever produces
AssetNotHandled; OutOfRange is the error the spec taxonomy additionally
names for width overflow. -/
inductive MatchError where
  | AssetNotHandled
  | OutOfRange
  deriving DecidableEq, Repr

/-- The NftsMatcher from the runtime XCM configuration (README.md): on the
exact shape parents = 0, interior = X2(PalletInstance(51),
GeneralIndex(collection)) with fungibility NonFungible(Index(item)) it
returns Ok of the pair cast down to u32 (modelled as mod 2 ^ 32, matching
the narrowing cast in the Rust source); every other shape returns
AssetNotHandled. -/
def matchNonFungible (a : Asset) : Except MatchError (Nat × Nat) :=
  match a.id.parents, a.id.interior, a.fungibility with
  | 0, [Junction.PalletInstance 51, Junction.GeneralIndex collection],
      Fungibility.NonFungible (AssetInstance.Index item) =>
    Except.ok (collection % 2 ^ 32, item % 2 ^ 32)
  | _, _, _ => Except.error MatchError.AssetNotHandled

/-- Pallet index of pallet-nfts in the tutorial runtime. -/
def NFTS_PALLET_INDEX : Nat := 51

/-- A versioned XCM location as the scripts build it (version tag "V4"). -/
structure VersionedLocation where
  version : String
  value : AssetLocation
  deriving DecidableEq, Repr

/-- A versioned XCM asset list as the scripts build it (version tag "V4"). -/
structure VersionedAssets where
  version : String
  value : List Asset
  deriving DecidableEq, Repr

/-- buildDestination from the untyped-API variant of transfer-nft.js:
parents = 1 with an X2 interior of Parachain(parachainId) followed by
AccountId32 of the recipient public key. -/
def buildDestination (parachainId : Nat) (recipientPublicKey : List Nat) : VersionedLocation :=
  { version := "V4"
    value := { parents := 1
               interior := [Junction.Parachain parachainId,
                            Junction.AccountId32 none recipientPublicKey] } }

/-- buildBeneficiary from the untyped-API variant of transfer-nft.js. -/
def buildBeneficiary (recipientPublicKey : List Nat) : VersionedLocation :=
  { version := "V4"
    value := { parents := 0
               interior := [Junction.AccountId32 none recipientPublicKey] } }

/-- buildNftAsset from the untyped-API variant of transfer-nft.js: a
singleton asset list whose id is parents = 0,
X2(PalletInstance(51), GeneralIndex(collectionId)) and whose fungibility is
NonFungible(Index(itemId)). -/
def buildNftAsset (collectionId itemId : Nat) : VersionedAssets :=
  { version := "V4"
    value := [{ id := { parents := 0
                        interior := [Junction.PalletInstance NFTS_PALLET_INDEX,
                                     Junction.GeneralIndex collectionId] }
                fungibility := Fungibility.NonFungible (AssetInstance.Index itemId) }] }

/-- buildDestination from the typed-API variant of transfer-nft.js:
parents = 1 with an X1 interior of just Parachain(parachainId); unlike the
untyped variant it takes no recipient key. -/
def buildDestinationTyped (parachainId : Nat) : VersionedLocation :=
  { version := "V4"
    value := { parents := 1
               interior := [Junction.Parachain parachainId] } }

/-- buildBeneficiary from the typed-API variant of transfer-nft.js; the
Binary wrapper around the recipient key carries the same bytes. -/
def buildBeneficiaryTyped (recipientPublicKey : List Nat) : VersionedLocation :=
  { version := "V4"
    value := { parents := 0
               interior := [Junction.AccountId32 none recipientPublicKey] } }

/-- buildNftAsset from the typed-API variant of transfer-nft.js. -/
def buildNftAssetTyped (collectionId itemId : Nat) : VersionedAssets :=
  { version := "V4"
    value := [{ id := { parents := 0
                        interior := [Junction.PalletInstance NFTS_PALLET_INDEX,
                                     Junction.GeneralIndex collectionId] }
                fungibility := Fungibility.NonFungible (AssetInstance.Index itemId) }] }

/-- The NftsFromSiblings reserve acceptance filter from the runtime XCM
configuration (README.md): true exactly when the origin unpacks to
(1, [Parachain(_)]) and the asset fungibility is NonFungible(_). -/
def nftsFromSiblingsContains (asset : Asset) (origin : AssetLocation) : Bool :=
  match origin.parents, origin.interior, asset.fungibility with
  | 1, [Junction.Parachain _], Fungibility.NonFungible _ => true
  | _, _, _ => false

/-- The exact structural pattern that the matcher recognises, stated
propositionally. -/
def IsNftPattern (a : Asset) : Prop :=
  a.id.parents = 0 ∧
  (∃ c, a.id.interior = [Junction.PalletInstance 51, Junction.GeneralIndex c]) ∧
  (∃ i, a.fungibility = Fungibility.NonFungible (AssetInstance.Index i))

/-- Failure of a query against a chain, as classified by the spec taxonomy. -/
inductive QueryError where
  | ConnectionError
  | MalformedQuery
  deriving DecidableEq, Repr

/-- An account identifier, abstracted to a natural number. -/
abbrev Account := Nat

/-- An item record as stored under the Nfts pallet; only the owner field is
read by the scripts. -/
structure NftItem where
  owner : Account
  deriving DecidableEq, Repr

/-- queryNftOwner from transfer-nft.js and setup-collections.js, as a pure
function of the single query outcome it awaits: the owner when the item
record exists, null (none) when the record is absent, and — because the
catch block swallows every exception and falls through to the final return
null — also none on any query failure.  The untyped variant additionally
ss58-encodes the owner before returning it; that pure re-encoding of the
same account is omitted as it does not affect which outcomes map to null. -/
def queryNftOwner (queryResult : Except QueryError (Option NftItem)) : Option Account :=
  match queryResult with
  | Except.ok (some item) => some item.owner
  | Except.ok none => none
  | Except.error _ => none

/-- queryCollectionCount from transfer-nft.js, as a pure function of the
single query outcome: the number of collection entries on success, and 0 on
any failure (the catch block returns 0). -/
def queryCollectionCount (queryResult : Except QueryError Nat) : Nat :=
  match queryResult with
  | Except.ok n => n
  | Except.error _ => 0

/-- queryNftOwner run against an oracle giving the outcome of each
successive query attempt.  The script body performs exactly one awaited
query call, so only attempt 0 is consulted; the second component counts the
attempts performed. -/
def queryNftOwnerRun (responses : Nat → Except QueryError (Option NftItem)) :
    Option Account × Nat :=
  (queryNftOwner (responses 0), 1)

/-- queryCollectionCount run against an oracle giving the outcome of each
successive query attempt; the script performs exactly one query call. -/
def queryCollectionCountRun (responses : Nat → Except QueryError Nat) : Nat × Nat :=
  (queryCollectionCount (responses 0), 1)

/-- Terminal failure reasons of the transfer state machine. -/
inductive FailReason where
  | SubmissionRejected
  | TimedOut
  | DuplicateSubmission
  deriving DecidableEq, Repr

/-- States of the per-request transfer state machine. -/
inductive TransferState where
  | Building
  | Signed
  | Submitted
  | AwaitingInclusion
  | AwaitingRemoteConfirmation
  | Settled
  | Failed (reason : FailReason)
  deriving DecidableEq, Repr

/-- A transfer request as the spec data model describes it. -/
structure TransferRequest where
  collectionId : Nat
  itemId : Nat
  sourceAccount : Account
  destinationChainId : Nat
  destinationAccount : Account
  deadline : Nat
  deriving DecidableEq, Repr

/-- What one polling round observes on the two ledgers. -/
structure Observation where
  sourceInclusion : Bool
  submissionRejected : Bool
  destinationEffect : Bool
  now : Nat
  deriving DecidableEq, Repr

/-- Modelled from the spec: the TransferOrchestrator poll operation.  No
orchestrator implementation exists in the repository (the transfer script
sleeps for a fixed 12 seconds instead of polling, which the spec's design
notes flag as a gap to replace), so poll follows the spec text: from
Submitted, rejection moves to Failed(SubmissionRejected) and observed
source inclusion moves to AwaitingInclusion; from the awaiting states, an
observed destination effect moves to Settled and a passed deadline moves to
Failed(TimedOut); Settled and Failed are terminal and a poll there returns
the same status performing no ledger operation.  The second component
counts ledger query operations performed by the round; states before
submission have nothing to query. -/
def poll (req : TransferRequest) (st : TransferState) (obs : Observation) :
    TransferState × Nat :=
  match st with
  | TransferState.Settled => (TransferState.Settled, 0)
  | TransferState.Failed r => (TransferState.Failed r, 0)
  | TransferState.Submitted =>
    if obs.submissionRejected then (TransferState.Failed FailReason.SubmissionRejected, 1)
    else if obs.sourceInclusion then (TransferState.AwaitingInclusion, 1)
    else (TransferState.Submitted, 1)
  | TransferState.AwaitingInclusion =>
    if obs.destinationEffect then (TransferState.Settled, 1)
    else if req.deadline < obs.now then (TransferState.Failed FailReason.TimedOut, 1)
    else (TransferState.AwaitingInclusion, 1)
  | TransferState.AwaitingRemoteConfirmation =>
    if obs.destinationEffect then (TransferState.Settled, 1)
    else if req.deadline < obs.now then (TransferState.Failed FailReason.TimedOut, 1)
    else (TransferState.AwaitingRemoteConfirmation, 1)
  | TransferState.Building => (TransferState.Building, 0)
  | TransferState.Signed => (TransferState.Signed, 0)

/-- A terminal state of the transfer state machine. -/
def IsTerminal (st : TransferState) : Prop :=
  st = TransferState.Settled ∨ ∃ r, st = TransferState.Failed r

/-- The orchestrator's view of the source chain for the idempotency guard:
an ownership oracle and the reserve/sovereign account of the destination
chain. -/
structure OrchestratorEnv where
  ownerOf : Nat → Nat → Option Account
  sovereign : Account

/-- Modelled from the spec: the TransferOrchestrator idempotency guard on
resubmission after a connection failure.  No such guard exists in the
repository scripts, so this follows the spec text: re-query source
ownership of (collectionId, itemId); if the item is held by the
reserve/sovereign account a transfer is already in flight and the attempt
is refused with DuplicateSubmission, performing no remote submission; if it
is still owned by the original sender, resubmission is safe and one remote
submission is performed.  Any other owner (or a missing item) means the
asset is out of the sender's control and the attempt fails without a
remote call.  The second component counts remote submission calls. -/
def resubmitAfterConnectionFailure (env : OrchestratorEnv) (req : TransferRequest) :
    TransferState × Nat :=
  match env.ownerOf req.collectionId req.itemId with
  | some owner =>
    if owner = env.sovereign then (TransferState.Failed FailReason.DuplicateSubmission, 0)
    else if owner = req.sourceAccount then (TransferState.Submitted, 1)
    else (TransferState.Failed FailReason.SubmissionRejected, 0)
  | none => (TransferState.Failed FailReason.SubmissionRejected, 0)

/-- Registry errors of the reserve registry extension point. -/
inductive RegistryError where
  | AlreadyMapped
  | CollectionInUse
  deriving DecidableEq, Repr

/-- The reserve registry: an append-only list of
(foreignLocation, localCollectionId) entries. -/
abbrev Registry := List (AssetLocation × Nat)

/-- Modelled from the spec: the ReserveRegistry register operation.  The
repository only declares the storage map for it (the README's ForeignNfts
sketch) with no implementation, so register follows the spec text: fail
with AlreadyMapped if the foreign location already has an entry, fail with
CollectionInUse if the local collection id is already the target of a
different foreign location, and otherwise append the new entry, leaving all
existing entries untouched. -/
def register (reg : Registry) (foreignLocation : AssetLocation) (localCollectionId : Nat) :
    Except RegistryError Registry :=
  if reg.any (fun e => decide (e.1 = foreignLocation)) then
    Except.error RegistryError.AlreadyMapped
  else if reg.any (fun e => decide (e.2 = localCollectionId)) then
    Except.error RegistryError.CollectionInUse
  else
    Except.ok (reg ++ [(foreignLocation, localCollectionId)])

/-- Modelled from the spec: ReserveRegistry resolve, a pure lookup. -/
def resolve (reg : Registry) (foreignLocation : AssetLocation) : Option Nat :=
  (reg.find? (fun e => decide (e.1 = foreignLocation))).map (fun e => e.2)

/-- Modelled from the spec: ReserveRegistry resolveReverse, a pure lookup. -/
def resolveReverse (reg : Registry) (localCollectionId : Nat) : Option AssetLocation :=
  (reg.find? (fun e => decide (e.2 = localCollectionId))).map (fun e => e.1)

/-- The attempt oracle answering the first query with a transient
connection failure and every retry with a successful count of 5. -/
def transientThenOk : Nat → Except QueryError Nat := fun k =>
  if k = 0 then Except.error QueryError.ConnectionError else Except.ok 5

/-- The orchestrator environment in which the sovereign account 7 holds
every item. -/
def sovereignHeldEnv : OrchestratorEnv :=
  { ownerOf := fun _ _ => some 7, sovereign := 7 }

/-- The concrete transfer request used as the guard witness. -/
def guardReq : TransferRequest :=
  { collectionId := 0, itemId := 1, sourceAccount := 2
    destinationChainId := 1001, destinationAccount := 3, deadline := 100 }

/-- The concrete transfer request used as the polling witness. -/
def timedOutReq : TransferRequest :=
  { collectionId := 0, itemId := 1, sourceAccount := 2
    destinationChainId := 1001, destinationAccount := 3, deadline := 10 }

/-- The observation of a round polled after the deadline. -/
def lateObs : Observation :=
  { sourceInclusion := true, submissionRejected := false
    destinationEffect := false, now := 99 }

/-- The first foreign location of the registry witness. -/
def foreignLocA : AssetLocation := { parents := 1, interior := [Junction.Parachain 1000] }

/-- The second foreign location of the registry witness. -/
def foreignLocB : AssetLocation := { parents := 1, interior := [Junction.Parachain 1001] }

/-- Claim C1: round-trip — for every collection id and item id representable
in the declared 32-bit width, matching the descriptor built for them
succeeds and returns the same pair. -/
theorem matchNonFungible_buildNftAsset_roundtrip (c i : Nat)
    (hc : c < 2 ^ 32) (hi : i < 2 ^ 32) :
    (buildNftAsset c i).value.map matchNonFungible = [Except.ok (c, i)] := by
  have h32 : (2 : Nat) ^ 32 = 4294967296 := by norm_num
  simp [buildNftAsset, matchNonFungible, NFTS_PALLET_INDEX,
    Nat.mod_eq_of_lt hc, Nat.mod_eq_of_lt hi]
  exact ⟨h32 ▸ hc, h32 ▸ hi⟩

/-- Witness for claim C1 at the concrete pair (7, 9). -/
theorem matchNonFungible_buildNftAsset_roundtrip_witness :
    (buildNftAsset 7 9).value.map matchNonFungible = [Except.ok (7, 9)] :=
  matchNonFungible_buildNftAsset_roundtrip 7 9 (by decide) (by decide)

/-- Claim C2, counterexample: the descriptor built for collection id 2 ^ 32
and item id 1 structurally matches the NFT pattern, yet the matcher returns
the silently truncated pair Ok (0, 1) rather than an OutOfRange error. -/
theorem matchNonFungible_overflow_counterexample :
    (buildNftAsset (2 ^ 32) 1).value.map matchNonFungible = [Except.ok (0, 1)] ∧
    (buildNftAsset (2 ^ 32) 1).value.map matchNonFungible ≠
      [Except.error MatchError.OutOfRange] := by
  have hok : (buildNftAsset (2 ^ 32) 1).value.map matchNonFungible = [Except.ok (0, 1)] := by
    rfl
  refine ⟨hok, ?_⟩
  rw [hok]
  simp

/-- Claim C2 as amended: on a structural match the matcher reduces both the
GeneralIndex and the Index value modulo 2 ^ 32 (the narrowing u32 cast) and
returns Ok of the truncated pair; no OutOfRange error is ever produced. -/
theorem matchNonFungible_truncates (c i : Nat) :
    matchNonFungible
      { id := { parents := 0
                interior := [Junction.PalletInstance 51, Junction.GeneralIndex c] }
        fungibility := Fungibility.NonFungible (AssetInstance.Index i) } =
      Except.ok (c % 2 ^ 32, i % 2 ^ 32) := by
  simp [matchNonFungible]

/-- Claim C3: rejection totality — on every descriptor that does not carry
the exact NFT pattern (parents 0, interior exactly PalletInstance(51) then
GeneralIndex, fungibility NonFungible(Index)), the matcher returns the
negative match AssetNotHandled; being a Lean function of the descriptor
alone it is pure and total. -/
theorem matchNonFungible_rejects (a : Asset) (h : ¬ IsNftPattern a) :
    matchNonFungible a = Except.error MatchError.AssetNotHandled := by
  unfold matchNonFungible
  split
  · rename_i collection item hp hint hfun
    exact absurd ⟨hp, ⟨collection, hint⟩, ⟨item, hfun⟩⟩ h
  · rfl

/-- Witness for claim C3: a fungible native-token descriptor is rejected. -/
theorem matchNonFungible_rejects_witness :
    matchNonFungible
      { id := { parents := 1, interior := [] }
        fungibility := Fungibility.Fungible 1000000 } =
      Except.error MatchError.AssetNotHandled :=
  matchNonFungible_rejects _ (by simp [IsNftPattern])

/-- Claim C5: policy gating — the NftsFromSiblings filter accepts exactly
the pairs whose origin is parents 1 with a single Parachain junction and
whose descriptor fungibility is NonFungible of any instance; every Fungible
descriptor and every other origin shape is refused. -/
theorem nftsFromSiblings_accepts_iff (a : Asset) (o : AssetLocation) :
    nftsFromSiblingsContains a o = true ↔
      o.parents = 1 ∧
      (∃ x, o.interior = [Junction.Parachain x]) ∧
      (∃ inst, a.fungibility = Fungibility.NonFungible inst) := by
  constructor
  · intro h
    unfold nftsFromSiblingsContains at h
    split at h
    · rename_i pid inst hp hint hfun
      exact ⟨hp, ⟨pid, hint⟩, ⟨inst, hfun⟩⟩
    · exact absurd h (by simp)
  · rintro ⟨hp, ⟨x, hint⟩, ⟨inst, hfun⟩⟩
    unfold nftsFromSiblingsContains
    rw [hp, hint, hfun]

/-- Claim C6, counterexample: a failed ownership query and a successful
query reporting an absent item produce the identical result null, so a
query failure is conflated with absence and the error is swallowed. -/
theorem queryNftOwner_conflates_failure_and_absence :
    queryNftOwner (Except.error QueryError.ConnectionError) =
      queryNftOwner (Except.ok none) ∧
    queryNftOwner (Except.error QueryError.ConnectionError) = none :=
  ⟨rfl, rfl⟩

/-- Claim C6 as amended: queryNftOwner returns the owning account when the
item exists and null when it is absent, but a query failure is caught and
also returns null, so failure is indistinguishable from absence. -/
theorem queryNftOwner_behaviour (it : NftItem) (e : QueryError) :
    queryNftOwner (Except.ok (some it)) = some it.owner ∧
    queryNftOwner (Except.ok none) = none ∧
    queryNftOwner (Except.error e) = none :=
  ⟨rfl, rfl, rfl⟩

/-- Claim C8, counterexample: against an oracle whose first answer is a
transient connection failure and whose retries would succeed with 5, the
collection-count query performs exactly one attempt and returns the default
0 — no retry happens; likewise a non-transient malformed-query failure of
the ownership query is not surfaced but swallowed into null after one
attempt. -/
theorem query_no_retry_counterexample :
    queryCollectionCountRun transientThenOk = (0, 1) ∧
    queryNftOwnerRun (fun _ => Except.error QueryError.MalformedQuery) = (none, 1) :=
  ⟨rfl, rfl⟩

/-- Claim C8 as amended: neither observer operation retries — each performs
exactly one query attempt regardless of the outcome, and every failure,
transient or not, is swallowed rather than surfaced: queryNftOwner yields
null and queryCollectionCount yields 0. -/
theorem query_single_attempt
    (ownerResponses : Nat → Except QueryError (Option NftItem))
    (countResponses : Nat → Except QueryError Nat) (e e' : QueryError) :
    (queryNftOwnerRun ownerResponses).2 = 1 ∧
    (queryCollectionCountRun countResponses).2 = 1 ∧
    queryNftOwner (Except.error e) = none ∧
    queryCollectionCount (Except.error e') = 0 :=
  ⟨rfl, rfl, rfl, rfl⟩

/-- Claim C10, counterexample: at destination parachain 1001 and recipient
key [1], the untyped-API buildDestination appends an AccountId32 junction
to the Parachain junction while the typed-API variant builds the Parachain
junction alone, so the two variants disagree on the destination location. -/
theorem buildDestination_variants_differ :
    buildDestination 1001 [1] ≠ buildDestinationTyped 1001 := by
  decide

/-- Claim C10 as amended: buildNftAsset and buildBeneficiary produce
structurally equal values in both script variants for all inputs, but
buildDestination does not — the untyped variant yields interior
[Parachain(id), AccountId32(recipient)] while the typed variant yields
[Parachain(id)] only. -/
theorem variant_equivalence (c i p : Nat) (pk : List Nat) :
    buildNftAssetTyped c i = buildNftAsset c i ∧
    buildBeneficiaryTyped pk = buildBeneficiary pk ∧
    (buildDestinationTyped p).value.interior = [Junction.Parachain p] ∧
    (buildDestination p pk).value.interior =
      [Junction.Parachain p, Junction.AccountId32 none pk] :=
  ⟨rfl, rfl, rfl, rfl⟩

/-- Claim C4: idempotency guard — whenever the source-chain owner of the
requested item is the reserve/sovereign account, a resubmission attempt
fails with DuplicateSubmission and performs no remote submission call. -/
theorem resubmit_refused_when_sovereign_owns (env : OrchestratorEnv) (req : TransferRequest)
    (h : env.ownerOf req.collectionId req.itemId = some env.sovereign) :
    resubmitAfterConnectionFailure env req =
      (TransferState.Failed FailReason.DuplicateSubmission, 0) := by
  unfold resubmitAfterConnectionFailure
  rw [h]
  simp

/-- Witness for claim C4: in the environment where the sovereign account
holds item (0, 1), the resubmission attempt for it is refused with
DuplicateSubmission and zero remote calls. -/
theorem resubmit_refused_witness :
    resubmitAfterConnectionFailure sovereignHeldEnv guardReq =
      (TransferState.Failed FailReason.DuplicateSubmission, 0) :=
  resubmit_refused_when_sovereign_owns sovereignHeldEnv guardReq rfl

/-- Claim C7: terminal-state idempotence — once the state machine is in
Settled or any Failed state, every poll returns the identical terminal
status and performs no ledger operation. -/
theorem poll_terminal_idempotent (req : TransferRequest) (st : TransferState)
    (obs : Observation) (h : IsTerminal st) :
    poll req st obs = (st, 0) := by
  rcases h with h | ⟨r, h⟩ <;> subst h <;> rfl

/-- Witness for claim C7: a poll performed after Failed(TimedOut) was
reached returns the identical Failed(TimedOut) status with no ledger
operation. -/
theorem poll_terminal_idempotent_witness :
    poll timedOutReq (TransferState.Failed FailReason.TimedOut) lateObs =
      (TransferState.Failed FailReason.TimedOut, 0) :=
  poll_terminal_idempotent timedOutReq (TransferState.Failed FailReason.TimedOut) lateObs
    (Or.inr ⟨FailReason.TimedOut, rfl⟩)

/-- Claim C9: registry injectivity and append-only growth — a successful
register call appends its entry leaving prior entries untouched; after it,
registering a different foreign location (one previously unmapped) to the
same local collection id fails with CollectionInUse, and registering the
same foreign location again fails with AlreadyMapped whatever collection id
is offered. -/
theorem register_injective_append_only (reg : Registry) (f1 f2 : AssetLocation)
    (c : Nat) (hne : f1 ≠ f2)
    (hf2 : reg.any (fun e => decide (e.1 = f2)) = false)
    (reg' : Registry) (h : register reg f1 c = Except.ok reg') :
    reg' = reg ++ [(f1, c)] ∧
    register reg' f2 c = Except.error RegistryError.CollectionInUse ∧
    ∀ c', register reg' f1 c' = Except.error RegistryError.AlreadyMapped := by
  unfold register at h
  by_cases h1 : reg.any (fun e => decide (e.1 = f1)) = true
  · simp [h1] at h
  · rw [Bool.not_eq_true] at h1
    by_cases h2 : reg.any (fun e => decide (e.2 = c)) = true
    · simp [h1, h2] at h
    · rw [Bool.not_eq_true] at h2
      simp [h1, h2] at h
      subst h
      refine ⟨rfl, ?_, ?_⟩
      · unfold register
        have hha : ((reg ++ [(f1, c)]).any (fun e => decide (e.1 = f2))) = false := by
          simp [List.any_append, hf2, hne]
        have hhb : ((reg ++ [(f1, c)]).any (fun e => decide (e.2 = c))) = true := by
          simp [List.any_append]
        rw [hha, hhb]
        simp
      · intro c'
        unfold register
        have hha : ((reg ++ [(f1, c)]).any (fun e => decide (e.1 = f1))) = true := by
          simp [List.any_append]
        rw [hha]
        simp

/-- Witness for claim C9: starting from the empty registry, registering
foreignLocA to collection 5 appends that entry; then registering the
distinct foreignLocB to the same collection 5 fails with CollectionInUse,
and re-registering foreignLocA fails with AlreadyMapped for every offered
collection id. -/
theorem register_injective_append_only_witness :
    ([(foreignLocA, 5)] : Registry) = [] ++ [(foreignLocA, 5)] ∧
    register [(foreignLocA, 5)] foreignLocB 5 = Except.error RegistryError.CollectionInUse ∧
    ∀ c', register [(foreignLocA, 5)] foreignLocA c' = Except.error RegistryError.AlreadyMapped :=
  register_injective_append_only [] foreignLocA foreignLocB 5 (by decide) (by decide)
    [(foreignLocA, 5)] rfl
